import Mathlib

/-!
The 42 simulator interface, `cfs/apps/i42/fsw/src/if42.c`.

A shallow embedding of the connection life cycle and of the cycle handshake
between the scheduler-driven parent (`IF42_ManageExecution`,
`IF42_SendActuatorCmds`, `IF42_ConnectCmd`, `IF42_DisconnectCmd`) and the
child task (`SocketTask`) that performs the blocking socket read.

* The object `If42` is the record `IF42_Class`; every C function becomes a
  function from the record to the new record, the list of externally visible
  calls it made (`Effect`), and its return value when it has one.
* Results of calls into the operating system, cFE and 42 are inputs of the
  embedded functions.
* `if42.h` and the configuration headers are not part of the sources, so the
  constants and the widths of the counters they declare are fields of `Config`.
* The sensor and actuator payloads (`Ac42`, `SensorPkt`) are moved by the 42
  codec and are not represented.
-/

namespace IF42

/-! ## Configuration taken from the headers -/

/-- The cFE unsigned integer typedefs a counter of `IF42_Class` can have. -/
inductive UIntType where
  | uint8
  | uint16
  | uint32
  | uint64
  deriving DecidableEq, Repr

/-- Number of bits of an unsigned integer type. -/
def UIntType.bits : UIntType → Nat
  | .uint8 => 8
  | .uint16 => 16
  | .uint32 => 32
  | .uint64 => 64

/-- Number of values of an unsigned integer type. -/
def UIntType.card (t : UIntType) : Nat := 2 ^ t.bits

/-- Constants and field types declared in headers (`if42.h`, `app_cfg.h`). -/
structure Config where
  I42_EXECUTE_UNCLOSED_CYCLE_LIM : Nat
  IF42_SEM_INVALID : Nat
  IF42_IP_ADDR_STR_LEN : Nat
  ExecuteCycleCntType : UIntType
  SensorPktCntType : UIntType
  ActuatorPktCntType : UIntType
  UnclosedCycleCntType : UIntType
  deriving DecidableEq, Repr

/-- The cFE status code of success. -/
def CFE_SUCCESS : Int := 0

/-- The C statement `++x` on an unsigned field of type `t`. -/
def preIncr (t : UIntType) (x : Nat) : Nat := (x + 1) % t.card

/-- The C call `strncpy(dst, src, n)` seen as the text stored in `dst`. -/
def strncpy (src : String) (n : Nat) : String := src.take n

/-! ## Externally visible calls -/

/-- Event identifiers used with `CFE_EVS_SendEvent`. -/
inductive EventId where
  | IF42_CREATE_SEM_ERR_EID
  | IF42_SOCKET_CLOSE_EID
  | IF42_CONNECT_TO_42_EID
  | IF42_CREATE_CHILD_ERR_EID
  | IF42_DEBUG_EID
  | IF42_SKIP_INIT_CYCLE_EID
  | IF42_NO_ACTUATOR_CMD_EID
  | IF42_SOCKET_OPEN_ERR_EID
  | IF42_HOST_ERR_EID
  | IF42_CONNECT_ERR_EID
  | IF42_CHILD_TASK_INIT_EID
  | IF42_CHILD_TASK_ERR_EID
  deriving DecidableEq, Repr

/-- Event types used with `CFE_EVS_SendEvent`. -/
inductive EventType where
  | CFE_EVS_DEBUG
  | CFE_EVS_INFORMATION
  | CFE_EVS_ERROR
  deriving DecidableEq, Repr

/-- One call made by the interface to the operating system, cFE or 42. -/
inductive Effect where
  | CFE_EVS_SendEvent (eid : EventId) (type : EventType)
  | OS_BinSemCreate
  | OS_BinSemGive (sem : Nat)
  | OS_BinSemTake (sem : Nat)
  | socket
  | gethostbyname (host : String)
  | connect (fd : Int) (port : Nat)
  | fcntl_O_NONBLOCK (fd : Int)
  | setsockopt_TCP_NODELAY (fd : Int)
  | close (fd : Int)
  | ReadFromSocket (fd : Int)
  | WriteToSocket (fd : Int)
  | CFE_SB_SendMsg
  | CFE_ES_GetAppIDByName
  | CFE_ES_GetAppInfo
  | CFE_ES_CreateChildTask
  | CFE_ES_RegisterChildTask
  | CFE_ES_ExitChildTask
  deriving DecidableEq, Repr

open Effect EventId EventType

/-- How often the semaphore `sem` is given in a list of calls. -/
def semGives (sem : Nat) (fx : List Effect) : Nat :=
  fx.count (OS_BinSemGive sem)

/-- Whether a call is any `OS_BinSemGive`. -/
def Effect.isSemGive : Effect → Bool
  | OS_BinSemGive _ => true
  | _ => false

/-- Whether a call closes a socket. -/
def Effect.isClose : Effect → Bool
  | close _ => true
  | _ => false

/-- Whether a call reads a sensor record from the socket. -/
def Effect.isRead : Effect → Bool
  | ReadFromSocket _ => true
  | _ => false

/-- Whether a call writes an actuator record to the socket. -/
def Effect.isWrite : Effect → Bool
  | WriteToSocket _ => true
  | _ => false

/-- Whether a call publishes a sensor packet on the software bus. -/
def Effect.isPublish : Effect → Bool
  | CFE_SB_SendMsg => true
  | _ => false

/-! ## The session object -/

/-- The fields of `IF42_Class` that the interface logic reads or writes. -/
structure IF42_Class where
  Connected : Bool
  InitCycle : Bool
  ActuatorPktSent : Bool
  WakeUpSemaphore : Nat
  ChildTaskId : Nat
  ExecuteCycleCnt : Nat
  SensorPktCnt : Nat
  ActuatorPktCnt : Nat
  UnclosedCycleCnt : Nat
  SocketFd : Int
  Port : Nat
  IpAddrStr : String
  deriving DecidableEq, Repr

/-- Result of `OS_BinSemCreate` in `IF42_Constructor`. -/
structure ConstructorEnv where
  semCreateStatus : Int
  semId : Nat
  deriving DecidableEq, Repr

/-- `IF42_Constructor`: the object is zeroed, then the address, the port and
the semaphore identifier are stored. -/
def IF42_Constructor (cfg : Config) (env : ConstructorEnv) (IpAddrStr : String) (Port : Nat) :
    IF42_Class × List Effect :=
  let zeroed : IF42_Class :=
    { Connected := false, InitCycle := false, ActuatorPktSent := false,
      WakeUpSemaphore := 0, ChildTaskId := 0, ExecuteCycleCnt := 0, SensorPktCnt := 0,
      ActuatorPktCnt := 0, UnclosedCycleCnt := 0, SocketFd := 0, Port := 0, IpAddrStr := "" }
  let s1 := { zeroed with Connected := false, Port := Port,
                          IpAddrStr := strncpy IpAddrStr cfg.IF42_IP_ADDR_STR_LEN }
  let s2 := { s1 with WakeUpSemaphore := env.semId }
  if env.semCreateStatus ≠ CFE_SUCCESS then
    (s2, [OS_BinSemCreate, CFE_EVS_SendEvent IF42_CREATE_SEM_ERR_EID CFE_EVS_ERROR])
  else
    (s2, [OS_BinSemCreate])

/-- `IF42_ResetStatus`: only the four counters are reset. -/
def IF42_ResetStatus (s : IF42_Class) : IF42_Class :=
  { s with ExecuteCycleCnt := 0, SensorPktCnt := 0, ActuatorPktCnt := 0, UnclosedCycleCnt := 0 }

/-- `IF42_Close`. -/
def IF42_Close (s : IF42_Class) : IF42_Class × List Effect :=
  let r : IF42_Class × List Effect :=
    if s.Connected = true then
      ({ s with Connected := false },
       [close s.SocketFd, OS_BinSemGive s.WakeUpSemaphore,
        CFE_EVS_SendEvent IF42_SOCKET_CLOSE_EID CFE_EVS_INFORMATION])
    else
      (s, [CFE_EVS_SendEvent IF42_SOCKET_CLOSE_EID CFE_EVS_DEBUG])
  (IF42_ResetStatus { r.1 with ActuatorPktSent := false }, r.2)

/-- `IF42_DisconnectCmd`: closes and returns `TRUE`. -/
def IF42_DisconnectCmd (s : IF42_Class) : Bool × IF42_Class × List Effect :=
  let r := IF42_Close s
  (true, r.1, r.2)

/-- Results of the system calls made by `InitClientSocket`. -/
structure SocketEnv where
  socketRc : Int
  hostFound : Bool
  connectRc : Int
  deriving DecidableEq, Repr

/-- `InitClientSocket`, ported in the source from `InitSocketClient` of 42. -/
def InitClientSocket (env : SocketEnv) (HostName : String) (Port : Nat) (AllowBlocking : Bool)
    (s : IF42_Class) : Bool × IF42_Class × List Effect :=
  let s1 := { s with Connected := false, IpAddrStr := HostName }
  let s2 := { s1 with SocketFd := env.socketRc }
  if s2.SocketFd < 0 then
    (s2.Connected, s2, [socket, CFE_EVS_SendEvent IF42_SOCKET_OPEN_ERR_EID CFE_EVS_ERROR])
  else if env.hostFound = false then
    (s2.Connected, s2,
      [socket, gethostbyname HostName, CFE_EVS_SendEvent IF42_HOST_ERR_EID CFE_EVS_ERROR])
  else
    let fx0 := [socket, gethostbyname HostName, CFE_EVS_SendEvent IF42_DEBUG_EID CFE_EVS_DEBUG,
                connect s2.SocketFd Port]
    if env.connectRc < 0 then
      (s2.Connected, s2, fx0 ++ [CFE_EVS_SendEvent IF42_CONNECT_ERR_EID CFE_EVS_ERROR])
    else
      let s3 := { s2 with Connected := true }
      let fx1 := fx0 ++ [CFE_EVS_SendEvent IF42_DEBUG_EID CFE_EVS_INFORMATION]
      let fx2 := if AllowBlocking = false then fx1 ++ [fcntl_O_NONBLOCK s3.SocketFd] else fx1
      (s3.Connected, s3, fx2 ++ [setsockopt_TCP_NODELAY s3.SocketFd])

/-- The connect command message and the results of the calls made by
`IF42_ConnectCmd`. -/
structure ConnectEnv where
  CmdIpAddrStr : String
  CmdPort : Nat
  sock : SocketEnv
  getAppIdStatus : Int
  getAppInfoStatus : Int
  NumOfChildTasks : Nat
  createChildStatus : Int
  createdTaskId : Nat
  deriving DecidableEq, Repr

/-- The part of `IF42_ConnectCmd` that looks for the child task and creates it
when the application has none. Returns the object, the calls and
`FailedToGetAppInfo`. `ChildTaskId` is written by `CFE_ES_CreateChildTask`
when it succeeds. -/
def IF42_ConnectCmd_child (env : ConnectEnv) (s : IF42_Class) :
    IF42_Class × List Effect × Bool :=
  if env.getAppIdStatus = CFE_SUCCESS then
    if env.getAppInfoStatus = CFE_SUCCESS then
      if env.NumOfChildTasks = 0 then
        if env.createChildStatus ≠ CFE_SUCCESS then
          let c := IF42_Close s
          (c.1, [CFE_ES_GetAppIDByName, CFE_ES_GetAppInfo, CFE_ES_CreateChildTask,
                 CFE_EVS_SendEvent IF42_CREATE_CHILD_ERR_EID CFE_EVS_ERROR] ++ c.2, false)
        else
          ({ s with ChildTaskId := env.createdTaskId },
           [CFE_ES_GetAppIDByName, CFE_ES_GetAppInfo, CFE_ES_CreateChildTask], false)
      else
        (s, [CFE_ES_GetAppIDByName, CFE_ES_GetAppInfo], false)
    else
      (s, [CFE_ES_GetAppIDByName, CFE_ES_GetAppInfo], true)
  else
    (s, [CFE_ES_GetAppIDByName], true)

/-- `IF42_ConnectCmd`: returns `If42->Connected`. -/
def IF42_ConnectCmd (cfg : Config) (env : ConnectEnv) (s : IF42_Class) :
    Bool × IF42_Class × List Effect :=
  let c := IF42_Close s
  let s1 := { c.1 with IpAddrStr := strncpy env.CmdIpAddrStr cfg.IF42_IP_ADDR_STR_LEN,
                       Port := env.CmdPort }
  let i := InitClientSocket env.sock s1.IpAddrStr s1.Port true s1
  let s2 := { i.2.1 with Connected := i.1 }
  let fx := c.2 ++ i.2.2
  if s2.Connected = true then
    let s3 := { s2 with InitCycle := true }
    let k := IF42_ConnectCmd_child env s3
    let fxInfo :=
      if k.2.2 = true then [CFE_EVS_SendEvent IF42_CONNECT_TO_42_EID CFE_EVS_INFORMATION] else []
    (k.1.Connected, k.1,
      fx ++ [CFE_EVS_SendEvent IF42_CONNECT_TO_42_EID CFE_EVS_INFORMATION] ++ k.2.1 ++ fxInfo
         ++ [OS_BinSemGive k.1.WakeUpSemaphore])
  else
    (s2.Connected, s2, fx)

/-- `IF42_ManageExecution`. -/
def IF42_ManageExecution (cfg : Config) (s : IF42_Class) : IF42_Class × List Effect :=
  let fx0 := [CFE_EVS_SendEvent IF42_DEBUG_EID CFE_EVS_DEBUG]
  if s.Connected = true then
    if s.InitCycle = true then
      (s, fx0 ++ [CFE_EVS_SendEvent IF42_SKIP_INIT_CYCLE_EID CFE_EVS_INFORMATION])
    else if s.WakeUpSemaphore ≠ cfg.IF42_SEM_INVALID then
      if s.ActuatorPktSent = true then
        ({ s with UnclosedCycleCnt := 0 },
         fx0 ++ [CFE_EVS_SendEvent IF42_DEBUG_EID CFE_EVS_DEBUG, OS_BinSemGive s.WakeUpSemaphore])
      else
        let s1 := { s with UnclosedCycleCnt := preIncr cfg.UnclosedCycleCntType s.UnclosedCycleCnt }
        if s1.UnclosedCycleCnt > cfg.I42_EXECUTE_UNCLOSED_CYCLE_LIM then
          ({ s1 with UnclosedCycleCnt := 0 },
           fx0 ++ [CFE_EVS_SendEvent IF42_NO_ACTUATOR_CMD_EID CFE_EVS_ERROR,
                   OS_BinSemGive s1.WakeUpSemaphore])
        else
          (s1, fx0)
    else
      (s, fx0)
  else
    (IF42_ResetStatus s, fx0)

/-- `IF42_RecvSensorData`: the value returned by `ReadFromSocket` (`readRc`) is
not looked at and the function returns `TRUE`. -/
def IF42_RecvSensorData (readRc : Int) (s : IF42_Class) : Bool × List Effect :=
  let _unused := readRc
  (true, [CFE_EVS_SendEvent IF42_DEBUG_EID CFE_EVS_DEBUG, ReadFromSocket s.SocketFd])

/-- `IF42_SendActuatorCmds`. -/
def IF42_SendActuatorCmds (cfg : Config) (s : IF42_Class) : Bool × IF42_Class × List Effect :=
  let fx := [CFE_EVS_SendEvent IF42_DEBUG_EID CFE_EVS_DEBUG, WriteToSocket s.SocketFd]
  let s1 := { s with InitCycle := false }
  let s2 := { s1 with ActuatorPktCnt := preIncr cfg.ActuatorPktCntType s1.ActuatorPktCnt }
  let s3 := { s2 with ActuatorPktSent := true }
  (true, s3, fx)

/-! ## The child task -/

/-- Results of the calls made in one pass of the loop of `SocketTask`:
`OS_BinSemTake`, `ReadFromSocket` and `CFE_SB_SendMsg`. -/
structure WakeEnv where
  takeStatus : Int
  readRc : Int
  sendStatus : Int
  deriving DecidableEq, Repr

/-- What a pass of a C loop body asks of the loop: go on with the next pass, or
leave the loop (`break`). -/
inductive LoopCtl where
  | next
  | leave
  deriving DecidableEq, Repr

/-- Where the child task is: at the top of its `while (TRUE)` loop, about to
pend on the semaphore, or past `CFE_ES_ExitChildTask`. -/
inductive TaskStatus where
  | inLoop
  | exited
  deriving DecidableEq, Repr

/-- The statements of `SocketTask` that follow the call of
`IF42_RecvSensorData`, whose result is `recv` (tested with `> 0`). -/
def SocketTask_afterRecv (cfg : Config) (recv : Bool) (sendStatus : Int) (s : IF42_Class) :
    IF42_Class × List Effect :=
  if recv = true then
    if sendStatus = CFE_SUCCESS then
      let s1 := { s with SensorPktCnt := preIncr cfg.SensorPktCntType s.SensorPktCnt }
      ({ s1 with ActuatorPktSent := false }, [CFE_SB_SendMsg])
    else
      (s, [CFE_SB_SendMsg])
  else
    ({ s with Connected := false }, [])

/-- One pass of the body of the `while (TRUE)` loop of `SocketTask`. The body
holds no `break` and no `return`. -/
def SocketTask_iteration (cfg : Config) (w : WakeEnv) (s : IF42_Class) :
    LoopCtl × IF42_Class × List Effect :=
  let fx0 := [CFE_EVS_SendEvent IF42_DEBUG_EID CFE_EVS_DEBUG, OS_BinSemTake s.WakeUpSemaphore]
  if w.takeStatus = CFE_SUCCESS ∧ s.Connected = true then
    let s1 := { s with ExecuteCycleCnt := preIncr cfg.ExecuteCycleCntType s.ExecuteCycleCnt }
    let r := IF42_RecvSensorData w.readRc s1
    let a := SocketTask_afterRecv cfg r.1 w.sendStatus s1
    (LoopCtl.next, a.1, fx0 ++ r.2 ++ a.2)
  else
    (LoopCtl.next, s, fx0)

/-- The statements of `SocketTask` that follow its loop and its `else` branch. -/
def SocketTask_exit (cfg : Config) (s : IF42_Class) : TaskStatus × IF42_Class × List Effect :=
  (TaskStatus.exited, { s with WakeUpSemaphore := cfg.IF42_SEM_INVALID }, [CFE_ES_ExitChildTask])

/-- The loop of `SocketTask` run from its top through the given wake-ups. When
the wake-ups are used up the task is back at the top of the loop. -/
def SocketTask_loop (cfg : Config) : List WakeEnv → IF42_Class →
    TaskStatus × IF42_Class × List Effect
  | [], s => (TaskStatus.inLoop, s, [])
  | w :: ws, s =>
    match SocketTask_iteration cfg w s with
    | (LoopCtl.next, s1, fx1) =>
      let r := SocketTask_loop cfg ws s1
      (r.1, r.2.1, fx1 ++ r.2.2)
    | (LoopCtl.leave, s1, fx1) =>
      let r := SocketTask_exit cfg s1
      (r.1, r.2.1, fx1 ++ r.2.2)

/-- `SocketTask` from its entry through the given wake-ups. -/
def SocketTask (cfg : Config) (registerStatus : Int) (wakes : List WakeEnv) (s : IF42_Class) :
    TaskStatus × IF42_Class × List Effect :=
  let s1 := { s with ActuatorPktSent := true }
  if registerStatus = CFE_SUCCESS then
    let r := SocketTask_loop cfg wakes s1
    (r.1, r.2.1,
      [CFE_ES_RegisterChildTask, CFE_EVS_SendEvent IF42_CHILD_TASK_INIT_EID CFE_EVS_INFORMATION]
        ++ r.2.2)
  else
    let r := SocketTask_exit cfg s1
    (r.1, r.2.1,
      [CFE_ES_RegisterChildTask, CFE_EVS_SendEvent IF42_CHILD_TASK_ERR_EID CFE_EVS_ERROR]
        ++ r.2.2)

/-! ## Sequences of calls -/

/-- The object after `n` successive calls of `IF42_ManageExecution`. -/
def ticks (cfg : Config) : Nat → IF42_Class → IF42_Class
  | 0, s => s
  | n + 1, s => (IF42_ManageExecution cfg (ticks cfg n s)).1

/-- The calls made by the `k`-th of successive calls of `IF42_ManageExecution`
(`k` counted from 1). -/
def tickEffects (cfg : Config) (k : Nat) (s : IF42_Class) : List Effect :=
  (IF42_ManageExecution cfg (ticks cfg (k - 1) s)).2

/-- A connect command followed by the start of the child task and its first
pass through the loop. -/
def connectAndFirstRecord (cfg : Config) (env : ConnectEnv) (registerStatus : Int) (w : WakeEnv)
    (s : IF42_Class) : IF42_Class :=
  (SocketTask cfg registerStatus [w] (IF42_ConnectCmd cfg env s).2.1).2.1

/-- The sequence connect, first sensor record, one actuator command. -/
def roundTrip (cfg : Config) (env : ConnectEnv) (registerStatus : Int) (w : WakeEnv)
    (s : IF42_Class) : IF42_Class :=
  (IF42_SendActuatorCmds cfg (connectAndFirstRecord cfg env registerStatus w s)).2.1

/-- Stall recovery as the scheduler sees it from the object `s`, with
`T = I42_EXECUTE_UNCLOSED_CYCLE_LIM`: each of the calls `1..T` of
`IF42_ManageExecution` gives no semaphore and leaves `UnclosedCycleCnt = k`,
and call `T + 1` gives the wake-up semaphore once and leaves
`UnclosedCycleCnt = 0`. -/
def StallRecovery (cfg : Config) (s : IF42_Class) : Prop :=
  (∀ k, 1 ≤ k → k ≤ cfg.I42_EXECUTE_UNCLOSED_CYCLE_LIM →
      (tickEffects cfg k s).countP Effect.isSemGive = 0 ∧
      (ticks cfg k s).UnclosedCycleCnt = k) ∧
  (tickEffects cfg (cfg.I42_EXECUTE_UNCLOSED_CYCLE_LIM + 1) s).countP Effect.isSemGive = 1 ∧
  semGives s.WakeUpSemaphore (tickEffects cfg (cfg.I42_EXECUTE_UNCLOSED_CYCLE_LIM + 1) s) = 1 ∧
  (ticks cfg (cfg.I42_EXECUTE_UNCLOSED_CYCLE_LIM + 1) s).UnclosedCycleCnt = 0

/-! ## Concrete configuration and inputs -/

/-- A configuration: limit 4, 32-bit semaphore sentinel, 16-character address. -/
def cfg0 : Config :=
  { I42_EXECUTE_UNCLOSED_CYCLE_LIM := 4, IF42_SEM_INVALID := 4294967295,
    IF42_IP_ADDR_STR_LEN := 16, ExecuteCycleCntType := UIntType.uint32,
    SensorPktCntType := UIntType.uint32, ActuatorPktCntType := UIntType.uint32,
    UnclosedCycleCntType := UIntType.uint16 }

/-- The object built by the constructor with semaphore identifier 7. -/
def sInit : IF42_Class :=
  (IF42_Constructor cfg0 { semCreateStatus := 0, semId := 7 } "127.0.0.1" 4242).1

/-- A connect command for which every call succeeds and no child task exists. -/
def envOk : ConnectEnv :=
  { CmdIpAddrStr := "127.0.0.1", CmdPort := 4242,
    sock := { socketRc := 3, hostFound := true, connectRc := 0 },
    getAppIdStatus := 0, getAppInfoStatus := 0, NumOfChildTasks := 0,
    createChildStatus := 0, createdTaskId := 11 }

/-- A wake-up in which the take, the read and the publish succeed. -/
def wakeOk : WakeEnv := { takeStatus := 0, readRc := 1, sendStatus := 0 }

/-- A wake-up in which the take succeeds and `ReadFromSocket` returns `-1`. -/
def wakeReadFails : WakeEnv := { takeStatus := 0, readRc := -1, sendStatus := 0 }

/-- A wake-up in which the take succeeds and `ReadFromSocket` returns `0`. -/
def wakeReadZero : WakeEnv := { takeStatus := 0, readRc := 0, sendStatus := 0 }

/-- The object after a successful connect and the first sensor record. -/
def sFirstRecord : IF42_Class := connectAndFirstRecord cfg0 envOk 0 wakeOk sInit

/-- The object after connect, first record, first actuator command and one
scheduler call, which gives the semaphore. -/
def sTick : IF42_Class :=
  (IF42_ManageExecution cfg0 (roundTrip cfg0 envOk 0 wakeOk sInit)).1

/-- The object after connect, first record, first actuator command, one
scheduler call and the second sensor record. -/
def sSecondRecord : IF42_Class :=
  (SocketTask_loop cfg0 [wakeOk] sTick).2.1

/-! ## Auxiliary facts -/

theorem UIntType.two_le_card (t : UIntType) : 2 ≤ t.card := by
  cases t <;> simp [UIntType.card, UIntType.bits]

theorem preIncr_zero (t : UIntType) : preIncr t 0 = 1 := by
  have h := t.two_le_card
  unfold preIncr
  exact Nat.mod_eq_of_lt (by omega)

theorem preIncr_of_lt (t : UIntType) (x : Nat) (h : x + 1 < t.card) : preIncr t x = x + 1 := by
  unfold preIncr
  exact Nat.mod_eq_of_lt h

theorem IF42_Close_state (s : IF42_Class) :
    (IF42_Close s).1 =
      { s with Connected := false, ActuatorPktSent := false, ExecuteCycleCnt := 0,
               SensorPktCnt := 0, ActuatorPktCnt := 0, UnclosedCycleCnt := 0 } := by
  unfold IF42_Close IF42_ResetStatus
  by_cases h : s.Connected = true
  · simp [h]
  · have h2 : s.Connected = false := by simpa using h
    cases s
    simp_all

theorem InitClientSocket_counters (env : SocketEnv) (host : String) (port : Nat) (b : Bool)
    (s : IF42_Class) :
    (InitClientSocket env host port b s).2.1.ExecuteCycleCnt = s.ExecuteCycleCnt ∧
    (InitClientSocket env host port b s).2.1.SensorPktCnt = s.SensorPktCnt ∧
    (InitClientSocket env host port b s).2.1.ActuatorPktCnt = s.ActuatorPktCnt ∧
    (InitClientSocket env host port b s).2.1.UnclosedCycleCnt = s.UnclosedCycleCnt ∧
    (InitClientSocket env host port b s).2.1.ActuatorPktSent = s.ActuatorPktSent ∧
    (InitClientSocket env host port b s).2.1.WakeUpSemaphore = s.WakeUpSemaphore := by
  unfold InitClientSocket
  simp only
  split_ifs <;> simp

/-! ## The scheduler call -/

/-- C1: in a connected session past its init cycle and with a valid wake-up
semaphore, one call of `IF42_ManageExecution` either (actuator packet sent)
gives the semaphore once and zeroes `UnclosedCycleCnt`, or (actuator packet
not sent) increments `UnclosedCycleCnt` with the C `++` of its type and then
gives the semaphore once and zeroes the counter exactly when the incremented
value exceeds `I42_EXECUTE_UNCLOSED_CYCLE_LIM`, and otherwise gives nothing
and keeps the incremented value. No other field changes. The increment is
`+ 1` whenever the result fits the counter type. -/
theorem manageExecution_cycle_step (cfg : Config) (s : IF42_Class)
    (hC : s.Connected = true) (hI : s.InitCycle = false)
    (hS : s.WakeUpSemaphore ≠ cfg.IF42_SEM_INVALID) :
    (s.ActuatorPktSent = true →
      (IF42_ManageExecution cfg s).1 = { s with UnclosedCycleCnt := 0 } ∧
      semGives s.WakeUpSemaphore (IF42_ManageExecution cfg s).2 = 1 ∧
      (IF42_ManageExecution cfg s).2.countP Effect.isSemGive = 1) ∧
    (s.ActuatorPktSent = false →
      (cfg.I42_EXECUTE_UNCLOSED_CYCLE_LIM < preIncr cfg.UnclosedCycleCntType s.UnclosedCycleCnt →
        (IF42_ManageExecution cfg s).1 = { s with UnclosedCycleCnt := 0 } ∧
        semGives s.WakeUpSemaphore (IF42_ManageExecution cfg s).2 = 1 ∧
        (IF42_ManageExecution cfg s).2.countP Effect.isSemGive = 1) ∧
      (¬ cfg.I42_EXECUTE_UNCLOSED_CYCLE_LIM < preIncr cfg.UnclosedCycleCntType s.UnclosedCycleCnt →
        (IF42_ManageExecution cfg s).1 =
          { s with UnclosedCycleCnt := preIncr cfg.UnclosedCycleCntType s.UnclosedCycleCnt } ∧
        (IF42_ManageExecution cfg s).2.countP Effect.isSemGive = 0)) ∧
    (s.UnclosedCycleCnt + 1 < cfg.UnclosedCycleCntType.card →
      preIncr cfg.UnclosedCycleCntType s.UnclosedCycleCnt = s.UnclosedCycleCnt + 1) := by
  refine ⟨?_, ?_, preIncr_of_lt _ _⟩
  · intro hA
    simp [IF42_ManageExecution, hC, hI, hS, hA, semGives, Effect.isSemGive]
  · intro hA
    constructor
    · intro hgt
      simp [IF42_ManageExecution, hC, hI, hS, hA, hgt, semGives, Effect.isSemGive]
    · intro hle
      simp [IF42_ManageExecution, hC, hI, hS, hA, hle, Effect.isSemGive]

/-- Witness of C1 at the object reached after connect, first record, first
actuator command, one scheduler call and the second record: the call gives no
semaphore and moves `UnclosedCycleCnt` from 0 to 1. -/
theorem manageExecution_cycle_step_witness :
    sSecondRecord.Connected = true ∧ sSecondRecord.InitCycle = false ∧
    sSecondRecord.WakeUpSemaphore ≠ cfg0.IF42_SEM_INVALID ∧
    sSecondRecord.ActuatorPktSent = false ∧
    (IF42_ManageExecution cfg0 sSecondRecord).1 =
      { sSecondRecord with
          UnclosedCycleCnt := preIncr cfg0.UnclosedCycleCntType sSecondRecord.UnclosedCycleCnt } ∧
    (IF42_ManageExecution cfg0 sSecondRecord).2.countP Effect.isSemGive = 0 :=
  ⟨by decide, by decide, by decide, by decide,
    ((manageExecution_cycle_step cfg0 sSecondRecord (by decide) (by decide) (by decide)).2.1
      (by decide)).2 (by decide)⟩

/-- C3: while `InitCycle` is `TRUE`, `IF42_ManageExecution` gives no semaphore
whatever the other fields hold, and in a connected session it returns with
every field unchanged. -/
theorem manageExecution_initCycle_skip (cfg : Config) (s : IF42_Class)
    (hI : s.InitCycle = true) :
    (IF42_ManageExecution cfg s).2.countP Effect.isSemGive = 0 ∧
    (s.Connected = true → (IF42_ManageExecution cfg s).1 = s) := by
  constructor
  · by_cases hC : s.Connected = true <;>
      simp [IF42_ManageExecution, hC, hI, Effect.isSemGive]
  · intro hC
    simp [IF42_ManageExecution, hC, hI]

/-- Witness of C3 at the object reached after connect and the first sensor
record, where `InitCycle` is still `TRUE`. -/
theorem manageExecution_initCycle_skip_witness :
    sFirstRecord.InitCycle = true ∧
    (IF42_ManageExecution cfg0 sFirstRecord).2.countP Effect.isSemGive = 0 ∧
    (sFirstRecord.Connected = true → (IF42_ManageExecution cfg0 sFirstRecord).1 = sFirstRecord) :=
  ⟨by decide, manageExecution_initCycle_skip cfg0 sFirstRecord (by decide)⟩

/-! ## Connect, close and the actuator command -/

theorem IF42_ConnectCmd_child_connected (env : ConnectEnv) (s : IF42_Class)
    (h : (IF42_ConnectCmd_child env s).1.Connected = true) :
    (IF42_ConnectCmd_child env s).1 = s ∨
    (IF42_ConnectCmd_child env s).1 = { s with ChildTaskId := env.createdTaskId } := by
  unfold IF42_ConnectCmd_child at h ⊢
  split_ifs at h ⊢
  · rw [IF42_Close_state] at h
    simp at h
  · exact Or.inr rfl
  · exact Or.inl rfl
  · exact Or.inl rfl
  · exact Or.inl rfl

theorem IF42_ConnectCmd_of_true (cfg : Config) (env : ConnectEnv) (s : IF42_Class)
    (h : (IF42_ConnectCmd cfg env s).1 = true) :
    (IF42_ConnectCmd cfg env s).2.1.Connected = true ∧
    (IF42_ConnectCmd cfg env s).2.1.ExecuteCycleCnt = 0 ∧
    (IF42_ConnectCmd cfg env s).2.1.SensorPktCnt = 0 ∧
    (IF42_ConnectCmd cfg env s).2.1.ActuatorPktCnt = 0 ∧
    (IF42_ConnectCmd cfg env s).2.1.UnclosedCycleCnt = 0 ∧
    (IF42_ConnectCmd cfg env s).2.1.InitCycle = true := by
  have hcl : (IF42_Close s).1.ExecuteCycleCnt = 0 ∧ (IF42_Close s).1.SensorPktCnt = 0 ∧
      (IF42_Close s).1.ActuatorPktCnt = 0 ∧ (IF42_Close s).1.UnclosedCycleCnt = 0 := by
    rw [IF42_Close_state]
    exact ⟨rfl, rfl, rfl, rfl⟩
  obtain ⟨c1, c2, c3, c4⟩ := hcl
  obtain ⟨i1, i2, i3, i4, -, -⟩ := InitClientSocket_counters env.sock
      (strncpy env.CmdIpAddrStr cfg.IF42_IP_ADDR_STR_LEN) env.CmdPort true
      { (IF42_Close s).1 with
          IpAddrStr := strncpy env.CmdIpAddrStr cfg.IF42_IP_ADDR_STR_LEN, Port := env.CmdPort }
  simp only [c1, c2, c3, c4] at i1 i2 i3 i4
  revert h
  unfold IF42_ConnectCmd
  simp only
  split_ifs with hc <;> intro h
  · rcases IF42_ConnectCmd_child_connected env _ h with hk | hk <;>
      rw [hk] <;> exact ⟨hc, i1, i2, i3, i4, rfl⟩
  · rcases IF42_ConnectCmd_child_connected env _ h with hk | hk <;>
      rw [hk] <;> exact ⟨hc, i1, i2, i3, i4, rfl⟩
  · exact absurd h hc

/-- C5: whenever `IF42_ConnectCmd` returns `TRUE`, whatever the prior object
and the host and port of the command, on return `Connected` is `TRUE`, the
four counters are 0 and `InitCycle` is `TRUE`. -/
theorem connectCmd_success_resets (cfg : Config) (env : ConnectEnv) (s : IF42_Class)
    (h : (IF42_ConnectCmd cfg env s).1 = true) :
    (IF42_ConnectCmd cfg env s).2.1.Connected = true ∧
    (IF42_ConnectCmd cfg env s).2.1.ExecuteCycleCnt = 0 ∧
    (IF42_ConnectCmd cfg env s).2.1.SensorPktCnt = 0 ∧
    (IF42_ConnectCmd cfg env s).2.1.ActuatorPktCnt = 0 ∧
    (IF42_ConnectCmd cfg env s).2.1.UnclosedCycleCnt = 0 ∧
    (IF42_ConnectCmd cfg env s).2.1.InitCycle = true :=
  IF42_ConnectCmd_of_true cfg env s h

/-- Witness of C5 at the constructed object and a connect command for which
every call succeeds. -/
theorem connectCmd_success_resets_witness :
    (IF42_ConnectCmd cfg0 envOk sInit).1 = true ∧
    (IF42_ConnectCmd cfg0 envOk sInit).2.1.Connected = true ∧
    (IF42_ConnectCmd cfg0 envOk sInit).2.1.ExecuteCycleCnt = 0 ∧
    (IF42_ConnectCmd cfg0 envOk sInit).2.1.SensorPktCnt = 0 ∧
    (IF42_ConnectCmd cfg0 envOk sInit).2.1.ActuatorPktCnt = 0 ∧
    (IF42_ConnectCmd cfg0 envOk sInit).2.1.UnclosedCycleCnt = 0 ∧
    (IF42_ConnectCmd cfg0 envOk sInit).2.1.InitCycle = true :=
  ⟨by decide, connectCmd_success_resets cfg0 envOk sInit (by decide)⟩

/-- C6 as stated fails: on the constructed object, which is not connected,
`IF42_SendActuatorCmds` returns `TRUE`, writes to the socket once and changes
`ActuatorPktCnt` and `ActuatorPktSent`. -/
theorem sendActuatorCmds_disconnected_counterexample :
    sInit.Connected = false ∧
    (IF42_SendActuatorCmds cfg0 sInit).1 = true ∧
    (IF42_SendActuatorCmds cfg0 sInit).2.2.countP Effect.isWrite = 1 ∧
    (IF42_SendActuatorCmds cfg0 sInit).2.1 ≠ sInit ∧
    sInit.ActuatorPktCnt = 0 ∧ (IF42_SendActuatorCmds cfg0 sInit).2.1.ActuatorPktCnt = 1 ∧
    sInit.ActuatorPktSent = false ∧
    (IF42_SendActuatorCmds cfg0 sInit).2.1.ActuatorPktSent = true := by
  refine ⟨by decide, by decide, by decide, ?_, by decide, by decide, by decide, by decide⟩
  intro h
  have h2 := congrArg IF42_Class.ActuatorPktCnt h
  revert h2
  decide

/-- C6 amended: `IF42_SendActuatorCmds` does not look at `Connected`. On every
object that is not connected it returns `TRUE`, makes one socket write on
`SocketFd`, and changes exactly three fields: `InitCycle` becomes `FALSE`,
`ActuatorPktCnt` is incremented and `ActuatorPktSent` becomes `TRUE`. -/
theorem sendActuatorCmds_disconnected (cfg : Config) (s : IF42_Class)
    (hC : s.Connected = false) :
    (IF42_SendActuatorCmds cfg s).1 = true ∧
    (IF42_SendActuatorCmds cfg s).2.2 =
      [CFE_EVS_SendEvent IF42_DEBUG_EID CFE_EVS_DEBUG, WriteToSocket s.SocketFd] ∧
    (IF42_SendActuatorCmds cfg s).2.1 =
      { s with InitCycle := false,
               ActuatorPktCnt := preIncr cfg.ActuatorPktCntType s.ActuatorPktCnt,
               ActuatorPktSent := true } ∧
    (IF42_SendActuatorCmds cfg s).2.1.Connected = false := by
  simp [IF42_SendActuatorCmds, hC]

/-- Witness of the amended C6 at the constructed object. -/
theorem sendActuatorCmds_disconnected_witness :
    sInit.Connected = false ∧
    (IF42_SendActuatorCmds cfg0 sInit).1 = true ∧
    (IF42_SendActuatorCmds cfg0 sInit).2.2 =
      [CFE_EVS_SendEvent IF42_DEBUG_EID CFE_EVS_DEBUG, WriteToSocket sInit.SocketFd] :=
  ⟨by decide, (sendActuatorCmds_disconnected cfg0 sInit (by decide)).1,
    (sendActuatorCmds_disconnected cfg0 sInit (by decide)).2.1⟩

/-- C9 as stated fails: closing the object reached after connect and the first
sensor record leaves `InitCycle` at `TRUE`, while the constructor gives it
`FALSE`. -/
theorem close_initCycle_counterexample :
    sFirstRecord.InitCycle = true ∧
    (IF42_Close sFirstRecord).1.InitCycle = true ∧
    sInit.InitCycle = false := by
  decide

/-- C9 amended: after `IF42_Close`, from any object, `Connected` is `FALSE`,
the four counters are 0 and `ActuatorPktSent` has the value the constructor
gives it (`FALSE`); `InitCycle` keeps the value it had before the call. -/
theorem close_resets (cfg : Config) (cenv : ConstructorEnv) (ip : String) (port : Nat)
    (s : IF42_Class) :
    (IF42_Close s).1.Connected = false ∧
    (IF42_Close s).1.ExecuteCycleCnt = 0 ∧
    (IF42_Close s).1.SensorPktCnt = 0 ∧
    (IF42_Close s).1.ActuatorPktCnt = 0 ∧
    (IF42_Close s).1.UnclosedCycleCnt = 0 ∧
    (IF42_Close s).1.ActuatorPktSent = false ∧
    (IF42_Close s).1.ActuatorPktSent = (IF42_Constructor cfg cenv ip port).1.ActuatorPktSent ∧
    (IF42_Close s).1.InitCycle = s.InitCycle := by
  rw [IF42_Close_state]
  unfold IF42_Constructor
  simp only
  split_ifs <;> simp

/-- C10: `IF42_DisconnectCmd` returns `TRUE` from every object; closing twice
leaves the same object as closing once; and on an object that is not connected
`IF42_Close` keeps `Connected` at `FALSE`, closes no socket and gives no
semaphore. -/
theorem close_idempotent (s : IF42_Class) :
    (IF42_DisconnectCmd s).1 = true ∧
    (IF42_DisconnectCmd s).2.1 = (IF42_Close s).1 ∧
    (IF42_Close (IF42_Close s).1).1 = (IF42_Close s).1 ∧
    (s.Connected = false →
      (IF42_Close s).1.Connected = false ∧
      (IF42_Close s).2.countP Effect.isClose = 0 ∧
      (IF42_Close s).2.countP Effect.isSemGive = 0) := by
  refine ⟨rfl, rfl, ?_, ?_⟩
  · simp only [IF42_Close_state]
  · intro hC
    refine ⟨by rw [IF42_Close_state], ?_, ?_⟩ <;>
      simp [IF42_Close, hC, Effect.isClose, Effect.isSemGive]

/-- Witness of C10 at the constructed object, which is not connected. -/
theorem close_idempotent_witness :
    sInit.Connected = false ∧
    (IF42_Close sInit).1.Connected = false ∧
    (IF42_Close sInit).2.countP Effect.isClose = 0 ∧
    (IF42_Close sInit).2.countP Effect.isSemGive = 0 :=
  ⟨by decide, (close_idempotent sInit).2.2.2 (by decide)⟩

/-! ## The round trip -/

/-- C4: from every object, when `IF42_ConnectCmd` succeeds, the child task
registers and is woken once with a successful take and a successful publish of
the first record, and `IF42_SendActuatorCmds` is then called once, the final
object has `ActuatorPktSent = TRUE`, `SensorPktCnt = 1`, `ActuatorPktCnt = 1`
and `InitCycle = FALSE`. -/
theorem roundTrip_closes_cycle (cfg : Config) (env : ConnectEnv) (w : WakeEnv) (s : IF42_Class)
    (hConn : (IF42_ConnectCmd cfg env s).1 = true)
    (hTake : w.takeStatus = CFE_SUCCESS) (hSend : w.sendStatus = CFE_SUCCESS) :
    (roundTrip cfg env CFE_SUCCESS w s).ActuatorPktSent = true ∧
    (roundTrip cfg env CFE_SUCCESS w s).SensorPktCnt = 1 ∧
    (roundTrip cfg env CFE_SUCCESS w s).ActuatorPktCnt = 1 ∧
    (roundTrip cfg env CFE_SUCCESS w s).InitCycle = false := by
  obtain ⟨hc, -, h2, h3, -, -⟩ := IF42_ConnectCmd_of_true cfg env s hConn
  unfold roundTrip connectAndFirstRecord
  generalize (IF42_ConnectCmd cfg env s).2.1 = c at hc h2 h3
  simp [IF42_SendActuatorCmds, SocketTask, SocketTask_loop, SocketTask_iteration,
    IF42_RecvSensorData, SocketTask_afterRecv, hTake, hSend, hc, h2, h3, preIncr_zero]

/-- Witness of C4 at the constructed object with a connect command that
creates the child task. -/
theorem roundTrip_closes_cycle_witness :
    (IF42_ConnectCmd cfg0 envOk sInit).1 = true ∧
    (IF42_ConnectCmd cfg0 envOk sInit).2.2.count CFE_ES_CreateChildTask = 1 ∧
    wakeOk.takeStatus = CFE_SUCCESS ∧ wakeOk.sendStatus = CFE_SUCCESS ∧
    (roundTrip cfg0 envOk CFE_SUCCESS wakeOk sInit).ActuatorPktSent = true ∧
    (roundTrip cfg0 envOk CFE_SUCCESS wakeOk sInit).SensorPktCnt = 1 ∧
    (roundTrip cfg0 envOk CFE_SUCCESS wakeOk sInit).ActuatorPktCnt = 1 ∧
    (roundTrip cfg0 envOk CFE_SUCCESS wakeOk sInit).InitCycle = false :=
  ⟨by decide, by decide, by decide, by decide,
    roundTrip_closes_cycle cfg0 envOk wakeOk sInit (by decide) (by decide) (by decide)⟩

/-! ## Stall recovery -/

theorem IF42_ManageExecution_pending (cfg : Config) (s : IF42_Class)
    (hC : s.Connected = true) (hI : s.InitCycle = false)
    (hS : s.WakeUpSemaphore ≠ cfg.IF42_SEM_INVALID) (hA : s.ActuatorPktSent = false) :
    IF42_ManageExecution cfg s =
      if cfg.I42_EXECUTE_UNCLOSED_CYCLE_LIM < preIncr cfg.UnclosedCycleCntType s.UnclosedCycleCnt
      then ({ s with UnclosedCycleCnt := 0 },
            [CFE_EVS_SendEvent IF42_DEBUG_EID CFE_EVS_DEBUG,
             CFE_EVS_SendEvent IF42_NO_ACTUATOR_CMD_EID CFE_EVS_ERROR,
             OS_BinSemGive s.WakeUpSemaphore])
      else ({ s with UnclosedCycleCnt := preIncr cfg.UnclosedCycleCntType s.UnclosedCycleCnt },
            [CFE_EVS_SendEvent IF42_DEBUG_EID CFE_EVS_DEBUG]) := by
  simp [IF42_ManageExecution, hC, hI, hS, hA]

theorem ticks_pending (cfg : Config) (s : IF42_Class)
    (hT : cfg.I42_EXECUTE_UNCLOSED_CYCLE_LIM + 1 < cfg.UnclosedCycleCntType.card)
    (hC : s.Connected = true) (hI : s.InitCycle = false)
    (hS : s.WakeUpSemaphore ≠ cfg.IF42_SEM_INVALID) (hA : s.ActuatorPktSent = false)
    (hU : s.UnclosedCycleCnt = 0) :
    ∀ k, k ≤ cfg.I42_EXECUTE_UNCLOSED_CYCLE_LIM → ticks cfg k s = { s with UnclosedCycleCnt := k }
  | 0, _ => by
    cases s
    simp_all [ticks]
  | k + 1, hk => by
    have ih := ticks_pending cfg s hT hC hI hS hA hU k (by omega)
    have hp : preIncr cfg.UnclosedCycleCntType k = k + 1 := preIncr_of_lt _ _ (by omega)
    have hle : ¬ cfg.I42_EXECUTE_UNCLOSED_CYCLE_LIM < k + 1 := by omega
    rw [ticks, ih, IF42_ManageExecution_pending cfg { s with UnclosedCycleCnt := k } hC hI hS hA]
    simp [hp, hle]

/-- C2 as stated fails: after a successful connect and the first sensor record
`InitCycle` is still `TRUE`, so with the limit 4 the first scheduler call
leaves `UnclosedCycleCnt` at 0 instead of 1 and the fifth call gives no
semaphore. -/
theorem stallRecovery_firstRecord_counterexample :
    cfg0.I42_EXECUTE_UNCLOSED_CYCLE_LIM = 4 ∧
    (IF42_ConnectCmd cfg0 envOk sInit).1 = true ∧
    sFirstRecord.SensorPktCnt = 1 ∧
    sFirstRecord.InitCycle = true ∧
    (ticks cfg0 1 sFirstRecord).UnclosedCycleCnt = 0 ∧
    (tickEffects cfg0 5 sFirstRecord).countP Effect.isSemGive = 0 ∧
    ¬ StallRecovery cfg0 sFirstRecord := by
  refine ⟨by decide, by decide, by decide, by decide, by decide, by decide, ?_⟩
  intro h
  have h1 := (h.1 1 (by decide) (by decide)).2
  revert h1
  decide

/-- C2 amended: for every limit `T = I42_EXECUTE_UNCLOSED_CYCLE_LIM` such that
`T + 1` fits the type of `UnclosedCycleCnt`, from every object of a connected
session whose init cycle is over (`InitCycle = FALSE`, as after the first
`IF42_SendActuatorCmds`), with a valid wake-up semaphore, a published sensor
record not yet answered (`ActuatorPktSent = FALSE`) and `UnclosedCycleCnt = 0`,
if `IF42_SendActuatorCmds` is not called then call `k` of
`IF42_ManageExecution`, `k = 1..T`, gives no semaphore and leaves
`UnclosedCycleCnt = k`, and call `T + 1` gives the wake-up semaphore once and
leaves `UnclosedCycleCnt = 0`. -/
theorem stallRecovery_after_initCycle (cfg : Config) (s : IF42_Class)
    (hT : cfg.I42_EXECUTE_UNCLOSED_CYCLE_LIM + 1 < cfg.UnclosedCycleCntType.card)
    (hC : s.Connected = true) (hI : s.InitCycle = false)
    (hS : s.WakeUpSemaphore ≠ cfg.IF42_SEM_INVALID) (hA : s.ActuatorPktSent = false)
    (hU : s.UnclosedCycleCnt = 0) : StallRecovery cfg s := by
  have hticks := ticks_pending cfg s hT hC hI hS hA hU
  refine ⟨?_, ?_⟩
  · intro k h1 hk
    have hp : preIncr cfg.UnclosedCycleCntType (k - 1) = k := by
      rw [preIncr_of_lt _ _ (by omega)]
      omega
    have hle : ¬ cfg.I42_EXECUTE_UNCLOSED_CYCLE_LIM < k := by omega
    refine ⟨?_, ?_⟩
    · rw [tickEffects, hticks (k - 1) (by omega),
        IF42_ManageExecution_pending cfg { s with UnclosedCycleCnt := k - 1 } hC hI hS hA]
      simp [hp, hle, Effect.isSemGive]
    · rw [hticks k hk]
  · have hp : preIncr cfg.UnclosedCycleCntType cfg.I42_EXECUTE_UNCLOSED_CYCLE_LIM =
        cfg.I42_EXECUTE_UNCLOSED_CYCLE_LIM + 1 := preIncr_of_lt _ _ hT
    rw [ticks, tickEffects, Nat.add_sub_cancel, hticks _ (le_refl _),
      IF42_ManageExecution_pending cfg
        { s with UnclosedCycleCnt := cfg.I42_EXECUTE_UNCLOSED_CYCLE_LIM } hC hI hS hA]
    simp [hp, semGives, Effect.isSemGive]

/-- Witness of the amended C2 at the object reached after connect, first
record, first actuator command, one scheduler call and the second record. -/
theorem stallRecovery_after_initCycle_witness :
    cfg0.I42_EXECUTE_UNCLOSED_CYCLE_LIM + 1 < cfg0.UnclosedCycleCntType.card ∧
    sSecondRecord.Connected = true ∧ sSecondRecord.InitCycle = false ∧
    sSecondRecord.WakeUpSemaphore ≠ cfg0.IF42_SEM_INVALID ∧
    sSecondRecord.ActuatorPktSent = false ∧ sSecondRecord.UnclosedCycleCnt = 0 ∧
    StallRecovery cfg0 sSecondRecord :=
  ⟨by decide, by decide, by decide, by decide, by decide, by decide,
    stallRecovery_after_initCycle cfg0 sSecondRecord (by decide) (by decide) (by decide)
      (by decide) (by decide) (by decide)⟩

/-! ## The child task on read failure and on close -/

theorem SocketTask_loop_status (cfg : Config) (ws : List WakeEnv) (s : IF42_Class) :
    (SocketTask_loop cfg ws s).1 = TaskStatus.inLoop ∧
    (SocketTask_loop cfg ws s).2.1.WakeUpSemaphore = s.WakeUpSemaphore := by
  induction ws generalizing s with
  | nil => exact ⟨rfl, rfl⟩
  | cons w ws ih =>
    rw [SocketTask_loop]
    unfold SocketTask_iteration SocketTask_afterRecv IF42_RecvSensorData
    simp only
    split_ifs <;> simp [ih]

/-- C7: the code at a failed read. `IF42_RecvSensorData` drops the value of
`ReadFromSocket` and returns `TRUE`, so the branch of `SocketTask` that sets
`Connected` to `FALSE` is not taken: the child task woken by a successful take
in a connected session, with `ReadFromSocket` returning `-1` or `0`, keeps
`Connected` at `TRUE`, publishes the packet, increments `SensorPktCnt` from 1
to 2 and is still in its loop. -/
theorem socketTask_readFailure_divergence :
    sTick.Connected = true ∧ sTick.SensorPktCnt = 1 ∧
    (SocketTask_loop cfg0 [wakeReadFails] sTick).1 = TaskStatus.inLoop ∧
    (SocketTask_loop cfg0 [wakeReadFails] sTick).2.1.Connected = true ∧
    (SocketTask_loop cfg0 [wakeReadFails] sTick).2.1.SensorPktCnt = 2 ∧
    (SocketTask_loop cfg0 [wakeReadFails] sTick).2.2.countP Effect.isPublish = 1 ∧
    (SocketTask_loop cfg0 [wakeReadZero] sTick).1 = TaskStatus.inLoop ∧
    (SocketTask_loop cfg0 [wakeReadZero] sTick).2.1.Connected = true ∧
    (SocketTask_loop cfg0 [wakeReadZero] sTick).2.1.SensorPktCnt = 2 ∧
    (SocketTask_loop cfg0 [wakeReadZero] sTick).2.2.countP Effect.isPublish = 1 := by
  decide

/-- C8 as stated fails: after `IF42_Close` on the connected session reached
after the second record, the next wake of the child task leaves it in its
loop, not exited, and `WakeUpSemaphore` keeps the identifier 7, different
from `IF42_SEM_INVALID`. -/
theorem close_wake_counterexample :
    sSecondRecord.Connected = true ∧
    (SocketTask_loop cfg0 [wakeOk] (IF42_Close sSecondRecord).1).1 = TaskStatus.inLoop ∧
    (SocketTask_loop cfg0 [wakeOk] (IF42_Close sSecondRecord).1).1 ≠ TaskStatus.exited ∧
    (SocketTask_loop cfg0 [wakeOk] (IF42_Close sSecondRecord).1).2.1.WakeUpSemaphore = 7 ∧
    (SocketTask_loop cfg0 [wakeOk] (IF42_Close sSecondRecord).1).2.1.WakeUpSemaphore ≠
      cfg0.IF42_SEM_INVALID := by
  decide

/-- C8 amended: `IF42_Close` on a connected session sets `Connected` to
`FALSE` and gives the wake-up semaphore once; the next wake of the child task,
whatever its take returned, makes no read and changes no field, so no counter
and not `WakeUpSemaphore`; the task stays in its loop and pends again; and
`IF42_ManageExecution` on the closed session gives no semaphore. -/
theorem close_then_wake (cfg : Config) (s : IF42_Class) (w : WakeEnv)
    (hC : s.Connected = true) :
    (IF42_Close s).1.Connected = false ∧
    semGives s.WakeUpSemaphore (IF42_Close s).2 = 1 ∧
    (IF42_Close s).2.countP Effect.isSemGive = 1 ∧
    SocketTask_loop cfg [w] (IF42_Close s).1 =
      (TaskStatus.inLoop, (IF42_Close s).1,
        [CFE_EVS_SendEvent IF42_DEBUG_EID CFE_EVS_DEBUG, OS_BinSemTake s.WakeUpSemaphore]) ∧
    (SocketTask_loop cfg [w] (IF42_Close s).1).2.2.countP Effect.isRead = 0 ∧
    (SocketTask_loop cfg [w] (IF42_Close s).1).2.1.WakeUpSemaphore = s.WakeUpSemaphore ∧
    (IF42_ManageExecution cfg (IF42_Close s).1).2.countP Effect.isSemGive = 0 := by
  have hst := IF42_Close_state s
  have hfx : (IF42_Close s).2 = [close s.SocketFd, OS_BinSemGive s.WakeUpSemaphore,
      CFE_EVS_SendEvent IF42_SOCKET_CLOSE_EID CFE_EVS_INFORMATION] := by
    simp [IF42_Close, hC]
  refine ⟨by rw [hst], by simp [hfx, semGives], by simp [hfx, Effect.isSemGive], ?_, ?_, ?_, ?_⟩
  · rw [hst]
    simp [SocketTask_loop, SocketTask_iteration]
  · rw [hst]
    simp [SocketTask_loop, SocketTask_iteration, Effect.isRead]
  · rw [hst]
    simp [SocketTask_loop, SocketTask_iteration]
  · rw [hst]
    simp [IF42_ManageExecution, Effect.isSemGive]

/-- Witness of the amended C8 at the object reached after the second record. -/
theorem close_then_wake_witness :
    sSecondRecord.Connected = true ∧
    (IF42_Close sSecondRecord).1.Connected = false ∧
    semGives sSecondRecord.WakeUpSemaphore (IF42_Close sSecondRecord).2 = 1 :=
  ⟨by decide, (close_then_wake cfg0 sSecondRecord wakeOk (by decide)).1,
    (close_then_wake cfg0 sSecondRecord wakeOk (by decide)).2.1⟩

end IF42
